import Mathlib

/-!
Shallow embedding of the `log` package (leveled logging with daily
file rotation), file `log.go`.  Machine integers are modelled as `Nat`
(the `Level` enum is a `uint8` holding only the six `iota` values
0..5); wall-clock reads (`time.Now().Format(TimeLayout)`) are passed
in as explicit `String` parameters; filesystem calls are modelled by
an error-injection environment `FsEnv` together with a trace of the
operations performed.  `fmt.Sprint` / `Sprintln` / `Sprintf` are
modelled over a small universe `GoVal` of printable values, following
the Go `fmt` rules the repository relies on (space between operands
only when neither is a string; `Sprintln` space-separates and appends
a newline; `Sprintf` substitutes the verbs used here).
-/

namespace GoLog

/-- The severity enum, `type Level uint8` with `iota` constants
`Ldebug .. Lfatal` (log.go lines 18-27). -/
inductive Level where
  | Ldebug
  | Linfo
  | Lwarn
  | Lerror
  | Lpanic
  | Lfatal
deriving DecidableEq, Repr

/-- The numeric value of a `Level` (the Go `uint8` given by `iota`):
`Ldebug = 0`, ..., `Lfatal = 5`. -/
def Level.toNat : Level → Nat
  | .Ldebug => 0
  | .Linfo => 1
  | .Lwarn => 2
  | .Lerror => 3
  | .Lpanic => 4
  | .Lfatal => 5

/-- Go's `lvl < l.level` comparison on the underlying `uint8`. -/
def Level.ltb (a b : Level) : Bool := a.toNat < b.toNat

/-- The fixed severity string table `levels` (log.go lines 29-36),
indexed by the enum ordinal. -/
def levels : List String := ["DEBUG", "INFO", "WARN", "ERROR", "PANIC", "FATAL"]

/-- `levels[lvl]`: indexing the string table by the ordinal. -/
def levelTag (lvl : Level) : String := levels.getD lvl.toNat ""

/-- Go stdlib `log` flag constants used by this package:
`Ldate = 1`, `Ltime = 2`, `LstdFlags = Ldate | Ltime`,
`Lshortfile = 16`. -/
def LstdFlags : Nat := 3

/-- Go stdlib `log.Lshortfile` flag. -/
def Lshortfile : Nat := 16

/-- `Ldefault = log.Lshortfile | log.LstdFlags` (log.go line 14). -/
def Ldefault : Nat := Lshortfile ||| LstdFlags

/-- Go's `%q` quoting of a plain string (escapes are not needed for
the texts in scope). -/
def goQuote (s : String) : String := "\"" ++ s ++ "\""

/-- Model of Go's `strings.ToLower`: lower-case every character.
(Go lowercases per Unicode; the ASCII `Char.toLower` agrees with it
on every input that can match one of the six tokens below.) -/
def goToLower (s : String) : String := ⟨s.data.map Char.toLower⟩

/-- `ParseLevel` (log.go lines 38-56): `switch strings.ToLower(lvl)`
over the six tokens; any other input returns the zero `Level` and the
error `invalid log Level: %q`.  We model the error as its message
string. -/
def ParseLevel (lvl : String) : Except String Level :=
  let s := goToLower lvl
  if s = "panic" then .ok .Lpanic
  else if s = "fatal" then .ok .Lfatal
  else if s = "error" then .ok .Lerror
  else if s = "warn" then .ok .Lwarn
  else if s = "info" then .ok .Linfo
  else if s = "debug" then .ok .Ldebug
  else .error ("invalid log Level: " ++ goQuote lvl)

/-- The lowercase text token of each level, as matched by the `switch`
in `ParseLevel`. -/
def levelToken : Level → String
  | .Ldebug => "debug"
  | .Linfo => "info"
  | .Lwarn => "warn"
  | .Lerror => "error"
  | .Lpanic => "panic"
  | .Lfatal => "fatal"

/-- A printable Go value handed to the variadic logging calls: a
string or an integer (the shapes the repository's call sites use). -/
inductive GoVal where
  | str (s : String)
  | int (n : Int)
deriving DecidableEq, Repr

/-- `%v` rendering of a single operand. -/
def GoVal.render : GoVal → String
  | .str s => s
  | .int n => toString n

/-- Go `fmt.Sprint` inserts a space between two operands only when
neither is a string. -/
def addSpace : GoVal → GoVal → Bool
  | .str _, _ => false
  | _, .str _ => false
  | _, _ => true

def sprintAux : GoVal → List GoVal → String
  | a, [] => a.render
  | a, b :: rest => a.render ++ (if addSpace a b then " " else "") ++ sprintAux b rest

/-- Model of `fmt.Sprint`. -/
def Sprint : List GoVal → String
  | [] => ""
  | a :: rest => sprintAux a rest

/-- Model of `fmt.Sprintln`: operands space-separated, trailing
newline. -/
def Sprintln (v : List GoVal) : String :=
  String.intercalate " " (v.map GoVal.render) ++ "\n"

def sprintfAux : List Char → List GoVal → String
  | [], _ => ""
  | '%' :: '%' :: rest, args => "%" ++ sprintfAux rest args
  | '%' :: c :: rest, args =>
    if c = 's' ∨ c = 'd' ∨ c = 'v' then
      match args with
      | a :: more => a.render ++ sprintfAux rest more
      | [] => "%!" ++ String.singleton c ++ "(MISSING)" ++ sprintfAux rest []
    else "%" ++ String.singleton c ++ sprintfAux rest args
  | c :: rest, args => String.singleton c ++ sprintfAux rest args

/-- Model of `fmt.Sprintf` for the verbs used with this package
(`%s`, `%d`, `%v`, `%%`). -/
def Sprintf (format : String) (v : List GoVal) : String :=
  sprintfAux format.data v

/-- The `Logger` struct (log.go lines 58-66).  The embedded
`*log.Logger` is represented by its configuration (`out`, `pfx`,
`flag`); the open `*os.File` is tracked only through the filesystem
trace; the mutex is the sequencing of the model. -/
structure Logger where
  out : String
  pfx : String
  flag : Nat
  level : Level
  shouldRotate : Bool
  timeSuffix : String
  fileName : String
deriving DecidableEq, Repr

/-- `New` (log.go lines 68-73): wraps a writer, no rotation; the
rotation-only fields stay at their zero values. -/
def New (w : String) (pfx : String) (flag : Nat) (level : Level) : Logger :=
  { out := w, pfx := pfx, flag := flag, level := level,
    shouldRotate := false, timeSuffix := "", fileName := "" }

/-- `NewRotate` (log.go lines 75-89), after the initial
`os.OpenFile` succeeded; `now` is `time.Now().Format(TimeLayout)`. -/
def NewRotate (fileName : String) (pfx : String) (flag : Nat) (level : Level)
    (now : String) : Logger :=
  { out := fileName, pfx := pfx, flag := flag, level := level,
    shouldRotate := true, timeSuffix := now, fileName := fileName }

/-- `var Std = New(os.Stderr, "", Ldefault, Ldebug)` (log.go line 91). -/
def Std : Logger := New "os.Stderr" "" Ldefault .Ldebug

/-- Error injection for the three filesystem calls inside `doRotate`:
`some e` makes the corresponding call fail with error text `e`. -/
structure FsEnv where
  closeErr : Option String
  renameErr : Option String
  openErr : Option String
deriving DecidableEq, Repr

/-- The environment in which every filesystem call succeeds. -/
def FsEnv.ok : FsEnv := ⟨none, none, none⟩

/-- A filesystem operation performed (successfully) by rotation. -/
inductive FsOp where
  | close
  | rename (src dst : String)
  | openFile (path : String)
deriving DecidableEq, Repr

/-- Result of a rotation check: the error returned (if any), the
logger state afterwards, and the filesystem operations that
completed. -/
structure RotateResult where
  err : Option String
  logger : Logger
  ops : List FsOp
deriving DecidableEq, Repr

/-- `doRotate` (log.go lines 105-133).  `now` is the locked re-read
of `time.Now().Format(TimeLayout)`.  Under the lock: if the suffix is
current, return nil; otherwise close the fd, rename `fileName` to
`fileName + "." + timeSuffix` (the OLD suffix), open a fresh file,
and only after all three succeeded set `timeSuffix := now`.  A
failing call returns its error with the state fields unchanged; the
trace records the calls that completed before it. -/
def Logger.doRotate (l : Logger) (now : String) (env : FsEnv) : RotateResult :=
  if now = l.timeSuffix then ⟨none, l, []⟩
  else
    match env.closeErr with
    | some e => ⟨some e, l, []⟩
    | none =>
      match env.renameErr with
      | some e => ⟨some e, l, [.close]⟩
      | none =>
        match env.openErr with
        | some e => ⟨some e, l, [.close, .rename l.fileName (l.fileName ++ "." ++ l.timeSuffix)]⟩
        | none =>
          ⟨none, { l with timeSuffix := now },
            [.close, .rename l.fileName (l.fileName ++ "." ++ l.timeSuffix),
             .openFile l.fileName]⟩

/-- `rotate` (log.go lines 93-103): the unlocked fast-path check uses
`now`; `doRotate` re-reads the clock, modelled by the separate
`nowInner` (equal to `now` unless the call straddles midnight). -/
def Logger.rotate (l : Logger) (now nowInner : String) (env : FsEnv) : RotateResult :=
  if now ≠ l.timeSuffix then l.doRotate nowInner env
  else ⟨none, l, []⟩

/-- What a call to `log`/`logln`/`logf` did: filtered below the
minimum severity (returned without writing), terminated the process
via `log.Fatal` on a rotation error (no line written), or wrote the
rendered line. -/
inductive LogOutcome where
  | filtered
  | fatalExit (msg : String)
  | wrote (line : String)
deriving DecidableEq, Repr

/-- Shared body of `log`/`logln`/`logf` (log.go lines 137-186):
filter by severity, run the rotation check when in rotation mode
(`log.Fatal` on its error), then write `body` through the embedded
logger. -/
def Logger.emit (l : Logger) (lvl : Level) (body : String)
    (now nowInner : String) (env : FsEnv) : LogOutcome × Logger × List FsOp :=
  if lvl.ltb l.level then (.filtered, l, [])
  else if l.shouldRotate then
    let r := l.rotate now nowInner env
    match r.err with
    | some e => (.fatalExit ("log rotate failed." ++ e), r.logger, r.ops)
    | none => (.wrote body, r.logger, r.ops)
  else (.wrote body, l, [])

/-- `log` (log.go lines 137-153): the written line is
`fmt.Sprint(levels[lvl] + " ", v...)`. -/
def Logger.log (l : Logger) (lvl : Level) (v : List GoVal)
    (now nowInner : String) (env : FsEnv) : LogOutcome × Logger × List FsOp :=
  l.emit lvl (Sprint (.str (levelTag lvl ++ " ") :: v)) now nowInner env

/-- `logln` (log.go lines 155-171): the line is
`fmt.Sprintln(levels[lvl] + " ", v...)`. -/
def Logger.logln (l : Logger) (lvl : Level) (v : List GoVal)
    (now nowInner : String) (env : FsEnv) : LogOutcome × Logger × List FsOp :=
  l.emit lvl (Sprintln (.str (levelTag lvl ++ " ") :: v)) now nowInner env

/-- `logf` (log.go lines 173-186): the line is
`levels[lvl] + " " + fmt.Sprintf(format, v...)`. -/
def Logger.logf (l : Logger) (lvl : Level) (format : String) (v : List GoVal)
    (now nowInner : String) (env : FsEnv) : LogOutcome × Logger × List FsOp :=
  l.emit lvl (levelTag lvl ++ " " ++ Sprintf format v) now nowInner env

/-- Control effect of a public logging method: normal return,
process exit with the given code, or a Go `panic` carrying the given
payload. -/
inductive CallEffect where
  | returned
  | exited (code : Int)
  | panicked (payload : String)
deriving DecidableEq, Repr

/-- If the internal logging call already terminated the process
(`log.Fatal` exits with status 1), that wins; otherwise the method's
own trailing effect happens. -/
def effectAfter (o : LogOutcome) (e : CallEffect) : CallEffect :=
  match o with
  | .fatalExit _ => .exited 1
  | _ => e

/-- Result of a public method call: what the internal logging call
did, the logger afterwards, the filesystem trace, and the control
effect observed by the caller. -/
structure CallResult where
  outcome : LogOutcome
  logger : Logger
  ops : List FsOp
  effect : CallEffect
deriving DecidableEq, Repr

def mkCall (r : LogOutcome × Logger × List FsOp) (e : CallEffect) : CallResult :=
  ⟨r.1, r.2.1, r.2.2, effectAfter r.1 e⟩

/-- `Fatal` (log.go lines 188-191): `l.log(Lfatal, v...)` then
`os.Exit(-1)`. -/
def Logger.Fatal (l : Logger) (v : List GoVal)
    (now nowInner : String) (env : FsEnv) : CallResult :=
  mkCall (l.log .Lfatal v now nowInner env) (.exited (-1))

/-- `Fatalf` (log.go lines 193-196). -/
def Logger.Fatalf (l : Logger) (format : String) (v : List GoVal)
    (now nowInner : String) (env : FsEnv) : CallResult :=
  mkCall (l.logf .Lfatal format v now nowInner env) (.exited (-1))

/-- `Fatalln` (log.go lines 198-201). -/
def Logger.Fatalln (l : Logger) (v : List GoVal)
    (now nowInner : String) (env : FsEnv) : CallResult :=
  mkCall (l.logln .Lfatal v now nowInner env) (.exited (-1))

/-- `Panic` (log.go lines 203-206): `l.log(Lpanic, v...)` then
`panic(fmt.Sprint(v...))`. -/
def Logger.Panic (l : Logger) (v : List GoVal)
    (now nowInner : String) (env : FsEnv) : CallResult :=
  mkCall (l.log .Lpanic v now nowInner env) (.panicked (Sprint v))

/-- `Panicf` (log.go lines 208-211): `l.logf(Lpanic, format, v...)`
then `panic(fmt.Sprintf(format, v...))`. -/
def Logger.Panicf (l : Logger) (format : String) (v : List GoVal)
    (now nowInner : String) (env : FsEnv) : CallResult :=
  mkCall (l.logf .Lpanic format v now nowInner env) (.panicked (Sprintf format v))

/-- `Error` (log.go lines 213-215): `l.log(Lerror, v...)`, then a
normal return. -/
def Logger.Error (l : Logger) (v : List GoVal)
    (now nowInner : String) (env : FsEnv) : CallResult :=
  mkCall (l.log .Lerror v now nowInner env) .returned

/-- `Infof` (log.go lines 241-243). -/
def Logger.Infof (l : Logger) (format : String) (v : List GoVal)
    (now nowInner : String) (env : FsEnv) : CallResult :=
  mkCall (l.logf .Linfo format v now nowInner env) .returned

/-- The spec's emission contract, written from its words:
`shouldEmit(msgSeverity, minSeverity)` is `msgSeverity >= minSeverity`
under the total order `debug < info < warn < error < panic < fatal`.
Compared below against the code's filter `lvl < l.level`. -/
def shouldEmitSpec (msg min : Level) : Bool := decide (min.toNat ≤ msg.toNat)

/-- A rendering mode of the public surface: `Print`-style
concatenation, `Println`-style line, `Printf`-style formatting. -/
inductive RenderMode where
  | plain
  | line
  | formatted
deriving DecidableEq, Repr

/-- The per-instance public logging methods that name a severity
(log.go lines 188-243), as (name, severity, rendering mode), in
source order. -/
def severityEntryPoints : List (String × Level × RenderMode) :=
  [("Fatal", .Lfatal, .plain), ("Fatalf", .Lfatal, .formatted), ("Fatalln", .Lfatal, .line),
   ("Panic", .Lpanic, .plain), ("Panicf", .Lpanic, .formatted),
   ("Error", .Lerror, .plain), ("Errorf", .Lerror, .formatted),
   ("Warn", .Lwarn, .plain), ("Warnf", .Lwarn, .formatted),
   ("Debug", .Ldebug, .plain), ("Debugf", .Ldebug, .formatted),
   ("Info", .Linfo, .plain), ("Infof", .Linfo, .formatted)]

/-- The `Print*` aliases (log.go lines 245-255), each delegating to
`info` severity. -/
def printAliases : List (String × Level × RenderMode) :=
  [("Print", .Linfo, .plain), ("Printf", .Linfo, .formatted), ("Println", .Linfo, .line)]

/-! ## Helper lemmas -/

/-- The code's filter `lvl < l.level` is the negation of the spec's
`shouldEmit`. -/
theorem shouldEmit_eq_not_ltb (lvl min : Level) :
    shouldEmitSpec lvl min = !(lvl.ltb min) := by
  rw [shouldEmitSpec, Level.ltb, ← decide_not, decide_eq_decide]
  exact Nat.not_lt.symm

/-- In the all-successful environment, `doRotate` never returns an
error. -/
theorem doRotate_ok_err (l : Logger) (now : String) :
    (l.doRotate now FsEnv.ok).err = none := by
  rw [Logger.doRotate]
  split <;> rfl

/-- In the all-successful environment, `rotate` never returns an
error. -/
theorem rotate_ok_err (l : Logger) (now nowInner : String) :
    (l.rotate now nowInner FsEnv.ok).err = none := by
  rw [Logger.rotate]
  split
  · exact doRotate_ok_err l nowInner
  · rfl

/-- String append is left-cancellative. -/
theorem string_append_cancel (s a b : String) (h : a ≠ b) :
    s ++ a ≠ s ++ b := by
  intro hc
  apply h
  have hd : (s ++ a).data = (s ++ b).data := by rw [hc]
  simp only [String.data_append] at hd
  exact String.ext (List.append_cancel_left hd)

/-- After a successful rotation check (same wall-clock reading in the
unlocked check and the locked re-check), the stored suffix matches the
clock. -/
theorem rotate_success_suffix (l : Logger) (now : String) (env : FsEnv)
    (h : (l.rotate now now env).err = none) :
    (l.rotate now now env).logger.timeSuffix = now := by
  obtain ⟨ce, re, oe⟩ := env
  by_cases hne : now = l.timeSuffix
  · simp [Logger.rotate, hne]
  · cases ce <;> cases re <;> cases oe <;>
      simp_all [Logger.rotate, Logger.doRotate, hne]

/-- A call below the minimum severity returns immediately. -/
theorem emit_filtered (l : Logger) (lvl : Level) (body now nowInner : String)
    (env : FsEnv) (h : lvl.ltb l.level = true) :
    l.emit lvl body now nowInner env = (.filtered, l, []) := by
  rw [Logger.emit, if_pos h]

/-- A call at or above the minimum severity writes its body when the
rotation check cannot fail. -/
theorem emit_outcome_ok (l : Logger) (lvl : Level) (body now nowInner : String)
    (h : lvl.ltb l.level = false) :
    (l.emit lvl body now nowInner FsEnv.ok).1 = .wrote body := by
  rw [Logger.emit, if_neg (by simp [h])]
  by_cases hr : l.shouldRotate
  · simp [hr, rotate_ok_err]
  · simp [hr]

/-- `Lfatal` compares below no configured minimum: the filter check
is false for every level value. -/
theorem fatal_ltb_false (min : Level) : Level.Lfatal.ltb min = false := by
  cases min <;> rfl

/-! ## Claim theorems -/

/-- C1: a logging call (any of the three rendering modes) emits —
formats and writes — its line iff the message severity is `>=` the
configured minimum under `debug < info < warn < error < panic <
fatal`; below the minimum it writes nothing and leaves the logger
state and the filesystem untouched. -/
theorem log_emits_iff_severity_ge_min (l : Logger) (lvl : Level) (v : List GoVal)
    (format now nowInner : String) (env : FsEnv) :
    ((∃ s, (l.log lvl v now nowInner FsEnv.ok).1 = .wrote s) ↔
        shouldEmitSpec lvl l.level = true) ∧
    ((∃ s, (l.logln lvl v now nowInner FsEnv.ok).1 = .wrote s) ↔
        shouldEmitSpec lvl l.level = true) ∧
    ((∃ s, (l.logf lvl format v now nowInner FsEnv.ok).1 = .wrote s) ↔
        shouldEmitSpec lvl l.level = true) ∧
    (shouldEmitSpec lvl l.level = false →
      l.log lvl v now nowInner env = (.filtered, l, []) ∧
      l.logln lvl v now nowInner env = (.filtered, l, []) ∧
      l.logf lvl format v now nowInner env = (.filtered, l, [])) := by
  have hspec := shouldEmit_eq_not_ltb lvl l.level
  by_cases hl : lvl.ltb l.level
  · rw [hl] at hspec
    simp only [Logger.log, Logger.logln, Logger.logf, hspec]
    refine ⟨?_, ?_, ?_, ?_⟩ <;>
      simp [emit_filtered l lvl _ now nowInner _ hl]
  · rw [Bool.not_eq_true] at hl
    rw [hl] at hspec
    simp only [Logger.log, Logger.logln, Logger.logf, hspec]
    refine ⟨?_, ?_, ?_, by simp⟩ <;>
      exact ⟨fun _ => rfl, fun _ => ⟨_, emit_outcome_ok l lvl _ now nowInner hl⟩⟩

/-- C1 witness: at the default configuration an `info` call emits,
and at minimum `warn` a `debug` call is filtered with no state
change. -/
theorem log_emits_iff_severity_ge_min_witness :
    (∃ s, (Std.log .Linfo [.str "x"] "" "" FsEnv.ok).1 = .wrote s) ∧
    (New "w" "" Ldefault .Lwarn).log .Ldebug [.str "x"] "" "" FsEnv.ok =
      (.filtered, New "w" "" Ldefault .Lwarn, []) :=
  ⟨(log_emits_iff_severity_ge_min Std .Linfo [.str "x"] "" "" "" FsEnv.ok).1.mpr
      (by decide),
   ((log_emits_iff_severity_ge_min (New "w" "" Ldefault .Lwarn) .Ldebug [.str "x"]
      "" "" "" FsEnv.ok).2.2.2 (by decide)).1⟩

/-- C2: when the rotation action runs with a stale suffix, the only
rename moves the file at the base path to the base path plus "." plus
the OLD suffix — never the newly computed one — and `timeSuffix` is
updated to the new day only when every step succeeded; on any failure
the logger state is unchanged. -/
theorem doRotate_renames_to_old_suffix (l : Logger) (now : String) (env : FsEnv)
    (hst : now ≠ l.timeSuffix) :
    (∀ src dst, FsOp.rename src dst ∈ (l.doRotate now env).ops →
        src = l.fileName ∧ dst = l.fileName ++ "." ++ l.timeSuffix) ∧
    FsOp.rename l.fileName (l.fileName ++ "." ++ now) ∉ (l.doRotate now env).ops ∧
    ((l.doRotate now env).err = none →
        FsOp.rename l.fileName (l.fileName ++ "." ++ l.timeSuffix) ∈
          (l.doRotate now env).ops ∧
        (l.doRotate now env).logger.timeSuffix = now) ∧
    ((l.doRotate now env).err ≠ none → (l.doRotate now env).logger = l) := by
  have hne : l.fileName ++ "." ++ l.timeSuffix ≠ l.fileName ++ "." ++ now :=
    string_append_cancel (l.fileName ++ ".") l.timeSuffix now (fun hh => hst hh.symm)
  obtain ⟨ce, re, oe⟩ := env
  cases ce <;> cases re <;> cases oe <;>
    simp_all [Logger.doRotate, hst, hne.symm]

/-- C2 witness: a concrete stale rotation archives under the old
day's suffix and installs the new suffix. -/
theorem doRotate_renames_to_old_suffix_witness :
    (FsOp.rename "test.log" ("test.log" ++ "." ++ "20251010") ∈
        ((NewRotate "test.log" "" Ldefault .Linfo "20251010").doRotate
          "20251011" FsEnv.ok).ops) ∧
    ((NewRotate "test.log" "" Ldefault .Linfo "20251010").doRotate
        "20251011" FsEnv.ok).logger.timeSuffix = "20251011" :=
  (doRotate_renames_to_old_suffix
    (NewRotate "test.log" "" Ldefault .Linfo "20251010") "20251011" FsEnv.ok
    (by decide)).2.2.1 (by decide)

/-- C3: the rotation check is idempotent within a calendar day: when
the computed suffix equals `timeSuffix` the check performs no
filesystem operation and leaves the logger unchanged, and after a
successful check a second check the same day is a no-op (the locked
double-check collapses the pair to at most one
close/rename/open sequence). -/
theorem rotation_check_idempotent (l : Logger) (now nowInner : String) (env : FsEnv) :
    (now = l.timeSuffix → l.rotate now nowInner env = ⟨none, l, []⟩) ∧
    ((l.rotate now now env).err = none →
      (l.rotate now now env).logger.rotate now now env =
        ⟨none, (l.rotate now now env).logger, []⟩) := by
  constructor
  · intro h
    rw [Logger.rotate, if_neg (by simp [h])]
  · intro h
    have hs := rotate_success_suffix l now env h
    rw [Logger.rotate, if_neg (by simp [hs])]

/-- C3 witness: a same-day check is a no-op, and a second check after
a concrete successful rotation performs no operation. -/
theorem rotation_check_idempotent_witness :
    ((NewRotate "test.log" "" Ldefault .Linfo "20251010").rotate
        "20251010" "20251010" FsEnv.ok =
      ⟨none, NewRotate "test.log" "" Ldefault .Linfo "20251010", []⟩) ∧
    (((NewRotate "test.log" "" Ldefault .Linfo "20251010").rotate
        "20251011" "20251011" FsEnv.ok).logger.rotate "20251011" "20251011" FsEnv.ok =
      ⟨none, ((NewRotate "test.log" "" Ldefault .Linfo "20251010").rotate
        "20251011" "20251011" FsEnv.ok).logger, []⟩) :=
  ⟨(rotation_check_idempotent (NewRotate "test.log" "" Ldefault .Linfo "20251010")
      "20251010" "20251010" FsEnv.ok).1 (by decide),
   (rotation_check_idempotent (NewRotate "test.log" "" Ldefault .Linfo "20251010")
      "20251011" "20251011" FsEnv.ok).2 (by decide)⟩

/-- C4: a fatal-severity call is never filtered, whatever the
configured minimum severity: `Lfatal` is the maximum of the enum, the
filter check `Lfatal < l.level` is false for every level, so
`Fatal`/`Fatalf`/`Fatalln` write their line and then exit the process
with the non-zero status `os.Exit(-1)`. -/
theorem fatal_writes_and_exits (l : Logger) (v : List GoVal)
    (format now nowInner : String) :
    Level.Lfatal.ltb l.level = false ∧
    (∀ min : Level, min.toNat ≤ Level.Lfatal.toNat) ∧
    (l.Fatal v now nowInner FsEnv.ok).outcome =
        .wrote (Sprint (.str (levelTag .Lfatal ++ " ") :: v)) ∧
    (l.Fatal v now nowInner FsEnv.ok).effect = .exited (-1) ∧
    (l.Fatalf format v now nowInner FsEnv.ok).outcome =
        .wrote (levelTag .Lfatal ++ " " ++ Sprintf format v) ∧
    (l.Fatalf format v now nowInner FsEnv.ok).effect = .exited (-1) ∧
    (l.Fatalln v now nowInner FsEnv.ok).outcome =
        .wrote (Sprintln (.str (levelTag .Lfatal ++ " ") :: v)) ∧
    (l.Fatalln v now nowInner FsEnv.ok).effect = .exited (-1) := by
  have hltb := fatal_ltb_false l.level
  have h1 := emit_outcome_ok l .Lfatal
    (Sprint (.str (levelTag .Lfatal ++ " ") :: v)) now nowInner hltb
  have h2 := emit_outcome_ok l .Lfatal
    (levelTag .Lfatal ++ " " ++ Sprintf format v) now nowInner hltb
  have h3 := emit_outcome_ok l .Lfatal
    (Sprintln (.str (levelTag .Lfatal ++ " ") :: v)) now nowInner hltb
  refine ⟨hltb, fun min => by cases min <;> decide, ?_, ?_, ?_, ?_, ?_, ?_⟩ <;>
    simp_all [Logger.Fatal, Logger.Fatalf, Logger.Fatalln, Logger.log,
      Logger.logf, Logger.logln, mkCall, effectAfter]

/-- C5 counterexample: with the configured minimum severity `fatal`
(a valid configuration), a `Panic` call writes nothing — the internal
logging call is filtered — yet still panics, so it does not "write
the rendered line and then raise" for every configuration. -/
theorem panic_filtered_at_fatal_min :
    ((New "w" "" Ldefault .Lfatal).Panic [.str "boom"] "" "" FsEnv.ok).outcome =
      .filtered ∧
    ((New "w" "" Ldefault .Lfatal).Panic [.str "boom"] "" "" FsEnv.ok).effect =
      .panicked "boom" := by
  decide

/-- C5 amended: a panic-severity call always raises after the
(attempted) write, with payload the formatted arguments; it actually
writes the rendered line iff `panic >= minimum severity`, i.e. for
every configured minimum except `fatal`, where it raises without
writing. -/
theorem panic_raises_after_optional_write (l : Logger) (v : List GoVal)
    (format now nowInner : String) :
    (l.Panic v now nowInner FsEnv.ok).effect = .panicked (Sprint v) ∧
    (l.Panicf format v now nowInner FsEnv.ok).effect =
        .panicked (Sprintf format v) ∧
    (shouldEmitSpec .Lpanic l.level = true →
      (l.Panic v now nowInner FsEnv.ok).outcome =
          .wrote (Sprint (.str (levelTag .Lpanic ++ " ") :: v)) ∧
      (l.Panicf format v now nowInner FsEnv.ok).outcome =
          .wrote (levelTag .Lpanic ++ " " ++ Sprintf format v)) ∧
    (shouldEmitSpec .Lpanic l.level = false →
      (l.Panic v now nowInner FsEnv.ok).outcome = .filtered ∧
      (l.Panicf format v now nowInner FsEnv.ok).outcome = .filtered) := by
  have hspec := shouldEmit_eq_not_ltb .Lpanic l.level
  by_cases hl : Level.Lpanic.ltb l.level
  · rw [hl] at hspec
    have e1 := emit_filtered l .Lpanic
      (Sprint (.str (levelTag .Lpanic ++ " ") :: v)) now nowInner FsEnv.ok hl
    have e2 := emit_filtered l .Lpanic
      (levelTag .Lpanic ++ " " ++ Sprintf format v) now nowInner FsEnv.ok hl
    simp_all [Logger.Panic, Logger.Panicf, Logger.log, Logger.logf, mkCall,
      effectAfter]
  · rw [Bool.not_eq_true] at hl
    rw [hl] at hspec
    have e1 := emit_outcome_ok l .Lpanic
      (Sprint (.str (levelTag .Lpanic ++ " ") :: v)) now nowInner hl
    have e2 := emit_outcome_ok l .Lpanic
      (levelTag .Lpanic ++ " " ++ Sprintf format v) now nowInner hl
    simp_all [Logger.Panic, Logger.Panicf, Logger.log, Logger.logf, mkCall,
      effectAfter]

/-- C5 witness: at the default minimum a `Panic` call writes and then
panics; at minimum `fatal` it is filtered. -/
theorem panic_raises_after_optional_write_witness :
    (Std.Panic [.str "boom"] "" "" FsEnv.ok).outcome =
        .wrote (Sprint (.str (levelTag .Lpanic ++ " ") :: [.str "boom"])) ∧
    ((New "w" "" Ldefault .Lfatal).Panic [.str "boom"] "" "" FsEnv.ok).outcome =
        .filtered :=
  ⟨((panic_raises_after_optional_write Std [.str "boom"] "" "" "").2.2.1
      (by decide)).1,
   ((panic_raises_after_optional_write (New "w" "" Ldefault .Lfatal)
      [.str "boom"] "" "" "").2.2.2 (by decide)).1⟩

/-- C6: severity parsing is case-insensitive over the six tokens
`debug`/`info`/`warn`/`error`/`panic`/`fatal` — any string whose
lower-casing equals a token parses to the corresponding level with no
error — and every other input fails with the `invalid log Level`
error carrying the offending text. -/
theorem parse_level_case_insensitive_total (s : String) :
    (∀ lvl : Level, goToLower s = levelToken lvl → ParseLevel s = .ok lvl) ∧
    ((∀ lvl : Level, goToLower s ≠ levelToken lvl) →
      ParseLevel s = .error ("invalid log Level: " ++ goQuote s)) := by
  constructor
  · intro lvl h
    cases lvl <;> rw [levelToken] at h <;> simp [ParseLevel, h]
  · intro h
    have h1 := h .Lpanic
    have h2 := h .Lfatal
    have h3 := h .Lerror
    have h4 := h .Lwarn
    have h5 := h .Linfo
    have h6 := h .Ldebug
    simp [levelToken] at h1 h2 h3 h4 h5 h6
    simp [ParseLevel, h1, h2, h3, h4, h5, h6]

/-- C6 witness: a mixed-case token parses, a non-token fails with the
error carrying the offending text. -/
theorem parse_level_case_insensitive_total_witness :
    ParseLevel "WaRn" = .ok .Lwarn ∧
    ParseLevel "nope" = .error ("invalid log Level: " ++ goQuote "nope") :=
  ⟨(parse_level_case_insensitive_total "WaRn").1 .Lwarn (by decide),
   (parse_level_case_insensitive_total "nope").2 (by intro lvl; cases lvl <;> decide)⟩

/-- C7: every emitted `logf` body is the severity's canonical
upper-case tag, taken from the fixed injective six-entry table
indexed by the enum ordinal, followed by one space and the formatted
arguments; concretely `Infof("Info: %s", "foo")` renders the body
`INFO Info: foo`. -/
theorem rendered_body_tag_space_args (l : Logger) (lvl : Level)
    (format now nowInner : String) (v : List GoVal)
    (h : shouldEmitSpec lvl l.level = true) :
    (l.logf lvl format v now nowInner FsEnv.ok).1 =
        .wrote (levelTag lvl ++ " " ++ Sprintf format v) ∧
    levels.length = 6 ∧ levels.Nodup ∧
    levelTag lvl = levels.getD lvl.toNat "" ∧
    (Std.Infof "Info: %s" [.str "foo"] "" "" FsEnv.ok).outcome =
        .wrote "INFO Info: foo" := by
  have hspec := shouldEmit_eq_not_ltb lvl l.level
  rw [h] at hspec
  have hl : lvl.ltb l.level = false := by
    cases hb : lvl.ltb l.level
    · rfl
    · rw [hb] at hspec; exact absurd hspec.symm (by decide)
  exact ⟨emit_outcome_ok l lvl _ now nowInner hl, rfl, by decide, rfl, by decide⟩

/-- C7 witness: the general body shape applied to the default logger
at severity `info`. -/
theorem rendered_body_tag_space_args_witness :
    (Std.logf .Linfo "x: %d" [.int 7] "" "" FsEnv.ok).1 =
      .wrote (levelTag .Linfo ++ " " ++ Sprintf "x: %d" [.int 7]) :=
  (rendered_body_tag_space_args Std .Linfo "x: %d" "" "" [.int 7] (by decide)).1

/-- C8: when the rotation check of a logging call returns an error,
the call hits `log.Fatal`: it never writes its line and never returns
normally to the caller — the process terminates (modelled as the
`fatalExit` outcome and the `exited 1` effect overriding any normal
return). -/
theorem rotation_failure_terminates (l : Logger) (lvl : Level) (v : List GoVal)
    (now nowInner : String) (env : FsEnv) (e : String)
    (hrot : l.shouldRotate = true)
    (hlvl : lvl.ltb l.level = false)
    (herr : (l.rotate now nowInner env).err = some e) :
    (l.log lvl v now nowInner env).1 =
        .fatalExit ("log rotate failed." ++ e) ∧
    (∀ s, (l.log lvl v now nowInner env).1 ≠ .wrote s) ∧
    (mkCall (l.log lvl v now nowInner env) .returned).effect = .exited 1 ∧
    (mkCall (l.log lvl v now nowInner env) .returned).effect ≠ .returned := by
  have hout : (l.log lvl v now nowInner env).1 =
      .fatalExit ("log rotate failed." ++ e) := by
    rw [Logger.log, Logger.emit, if_neg (by simp [hlvl]), if_pos hrot]
    simp [herr]
  refine ⟨hout, ?_, ?_, ?_⟩
  · intro s
    rw [hout]
    simp
  · simp [mkCall, hout, effectAfter]
  · simp [mkCall, hout, effectAfter]

/-- C8 witness: a concrete rotating logger whose `close` fails during
rotation terminates instead of writing. -/
theorem rotation_failure_terminates_witness :
    ((NewRotate "test.log" "" Ldefault .Linfo "20251010").log .Lerror
        [.str "x"] "20251011" "20251011" ⟨some " disk full", none, none⟩).1 =
      .fatalExit ("log rotate failed." ++ " disk full") :=
  (rotation_failure_terminates (NewRotate "test.log" "" Ldefault .Linfo "20251010")
    .Lerror [.str "x"] "20251011" "20251011" ⟨some " disk full", none, none⟩
    " disk full" rfl rfl (by decide)).1

/-- C9 counterexample: the per-instance surface does not consist of
6 severities × 3 rendering modes = 18 severity entry points plus two
`Print*` aliases: the source has 13 severity-named methods (the
`*ln` mode exists only for `fatal`) and three `Print*` aliases. -/
theorem entry_point_count_counterexample :
    ¬ (severityEntryPoints.length = 18 ∧ printAliases.length = 2) := by
  decide

/-- C9 amended: the per-instance public surface provides
concatenation and printf modes for each of the six severities but the
line mode only for `fatal` — 13 severity entry points — plus three
`Print*` aliases (`Print`, `Printf`, `Println`), every alias mapped
to `info` severity. -/
theorem entry_point_surface :
    severityEntryPoints.length = 13 ∧
    printAliases.length = 3 ∧
    (∀ p ∈ printAliases, p.2.1 = Level.Linfo) ∧
    (∀ lvl : Level, ∃ p ∈ severityEntryPoints,
        p.2.1 = lvl ∧ p.2.2 = RenderMode.plain) ∧
    (∀ lvl : Level, ∃ p ∈ severityEntryPoints,
        p.2.1 = lvl ∧ p.2.2 = RenderMode.formatted) ∧
    (∀ p ∈ severityEntryPoints, p.2.2 = RenderMode.line →
        p.2.1 = Level.Lfatal) := by
  refine ⟨rfl, rfl, by decide, ?_, ?_, by decide⟩ <;>
    intro lvl <;> cases lvl <;> decide

/-- C10: the process-wide default logger is built at package
initialization as `New(os.Stderr, "", Ldefault, Ldebug)`: standard
error, empty prefix, default flags (standard timestamp plus short
file/line), minimum severity `debug` — so every severity is emitted
through it by default. -/
theorem std_default_logger_spec :
    Std = New "os.Stderr" "" Ldefault .Ldebug ∧
    Std.out = "os.Stderr" ∧ Std.pfx = "" ∧
    Std.flag = Ldefault ∧ Ldefault = LstdFlags ||| Lshortfile ∧
    Std.level = .Ldebug ∧ Std.shouldRotate = false ∧
    (∀ (lvl : Level) (v : List GoVal) (now nowInner : String) (env : FsEnv),
      (Std.log lvl v now nowInner env).1 =
        .wrote (Sprint (.str (levelTag lvl ++ " ") :: v))) := by
  refine ⟨rfl, rfl, rfl, rfl, by decide, rfl, rfl, ?_⟩
  intro lvl v now nowInner env
  cases lvl <;> rfl

end GoLog
